import Mathlib

/-!
Verification of the Gaze-up head-tracking UI against its specification.

The embedded code lives in `src/services/visionService.ts` (landmark mapper,
adaptive cursor filter, blink detector, dwell detector),
`src/components/CalibrationScreen.tsx` (`computeCalibration`) and the main
application file (`processVisionResult`: hit testing, dwell-open, blink
arbitration with a debounce window).

Two numeric models are used, each faithful in its own domain:

* A JavaScript-value model `JSVal` representing an IEEE-754 double as either
  `nan`, `inf` (+Infinity), `ninf` (-Infinity) or an exact rational `fin q`.
  Rounding of finite values is ignored, but the special-value propagation of
  the arithmetic operators and of `Math.min` / `Math.max` and comparisons is
  modelled exactly.  This model settles the claims about what happens when a
  calibration axis has `end = start` and the code divides by zero.
  `Math.sqrt` generally returns an irrational number, which `fin : Rat` cannot
  carry, so the square root is modelled relationally by `jsSqrtSpec` (the
  claims that need it only ever take the square root of `nan`).
* An exact-real model (`mapTarget`, `frameStep`, `dwellStep`,
  `computeCalibration` over `Real`) for the arithmetic of the filter, the
  dwell detector and the calibration engine, where no division by zero occurs.

All TypeScript constants are embedded with their exact decimal values.
The nested profile shape `{x:{start,end}, y:{start,end}}` is flattened to
`CalibrationConfig` with fields `xStart`, `xEnd`, `yStart`, `yEnd` because
`end` is a Lean keyword.
-/

/-- A JavaScript number: NaN, +Infinity, -Infinity, or a finite value
(modelled as an exact rational; rounding ignored, signed zero collapsed
to `0`, which is adequate here because every zero arising in the embedded
code is `+0`). -/
inductive JSVal where
  | nan : JSVal
  | inf : JSVal
  | ninf : JSVal
  | fin : ℚ → JSVal
deriving DecidableEq

/-- JavaScript `+` on numbers. -/
def jsAdd : JSVal → JSVal → JSVal
  | .nan, _ => .nan
  | _, .nan => .nan
  | .inf, .ninf => .nan
  | .ninf, .inf => .nan
  | .inf, _ => .inf
  | _, .inf => .inf
  | .ninf, _ => .ninf
  | _, .ninf => .ninf
  | .fin a, .fin b => .fin (a + b)

/-- JavaScript `-` on numbers. -/
def jsSub : JSVal → JSVal → JSVal
  | .nan, _ => .nan
  | _, .nan => .nan
  | .inf, .inf => .nan
  | .ninf, .ninf => .nan
  | .inf, _ => .inf
  | .ninf, _ => .ninf
  | .fin _, .inf => .ninf
  | .fin _, .ninf => .inf
  | .fin a, .fin b => .fin (a - b)

/-- JavaScript `*` on numbers. -/
def jsMul : JSVal → JSVal → JSVal
  | .nan, _ => .nan
  | _, .nan => .nan
  | .inf, .inf => .inf
  | .inf, .ninf => .ninf
  | .ninf, .inf => .ninf
  | .ninf, .ninf => .inf
  | .inf, .fin b => if b = 0 then .nan else if 0 < b then .inf else .ninf
  | .fin a, .inf => if a = 0 then .nan else if 0 < a then .inf else .ninf
  | .ninf, .fin b => if b = 0 then .nan else if 0 < b then .ninf else .inf
  | .fin a, .ninf => if a = 0 then .nan else if 0 < a then .ninf else .inf
  | .fin a, .fin b => .fin (a * b)

/-- JavaScript `/` on numbers.  Division of a nonzero finite value by `+0`
yields a signed infinity and `0/0` yields NaN. -/
def jsDiv : JSVal → JSVal → JSVal
  | .nan, _ => .nan
  | _, .nan => .nan
  | .inf, .inf => .nan
  | .inf, .ninf => .nan
  | .ninf, .inf => .nan
  | .ninf, .ninf => .nan
  | .inf, .fin b => if 0 ≤ b then .inf else .ninf
  | .ninf, .fin b => if 0 ≤ b then .ninf else .inf
  | .fin _, .inf => .fin 0
  | .fin _, .ninf => .fin 0
  | .fin a, .fin b =>
      if b = 0 then (if a = 0 then .nan else if 0 < a then .inf else .ninf)
      else .fin (a / b)

/-- JavaScript `Math.min` (NaN-propagating). -/
def jsMin : JSVal → JSVal → JSVal
  | .nan, _ => .nan
  | _, .nan => .nan
  | .ninf, _ => .ninf
  | _, .ninf => .ninf
  | .inf, v => v
  | v, .inf => v
  | .fin a, .fin b => .fin (min a b)

/-- JavaScript `Math.max` (NaN-propagating). -/
def jsMax : JSVal → JSVal → JSVal
  | .nan, _ => .nan
  | _, .nan => .nan
  | .inf, _ => .inf
  | _, .inf => .inf
  | .ninf, v => v
  | v, .ninf => v
  | .fin a, .fin b => .fin (max a b)

/-- JavaScript `<` on numbers: any comparison involving NaN is false. -/
def jsLt : JSVal → JSVal → Bool
  | .nan, _ => false
  | _, .nan => false
  | .inf, _ => false
  | .ninf, .ninf => false
  | .ninf, _ => true
  | .fin _, .inf => true
  | .fin _, .ninf => false
  | .fin a, .fin b => decide (a < b)

/-- `Math.max(0, Math.min(1, v))`, the clamp applied by the mapper
(`visionService.ts` lines 129-135). -/
def jsClamp01 (v : JSVal) : JSVal := jsMax (.fin 0) (jsMin (.fin 1) v)

/-- Whether a JS value is a finite number lying in the closed interval
`[0,1]`; false for NaN and the infinities. -/
def jsMem01 : JSVal → Bool
  | .fin q => decide (0 ≤ q ∧ q ≤ 1)
  | _ => false

/-- The calibration profile consumed by the mapper
(`types.ts` `CalibrationConfig`), flattened:
`xStart = x.start`, `xEnd = x.end`, `yStart = y.start`, `yEnd = y.end`. -/
structure CalibrationConfig (α : Type) where
  xStart : α
  xEnd : α
  yStart : α
  yEnd : α
deriving DecidableEq

/-- The landmark mapper of `visionService.ts` lines 118-135 under JavaScript
number semantics.  With a stored profile the code computes
`(raw - start) / (end - start)` per axis with no guard on the denominator;
without one it amplifies the deviation from 0.5 by 2.5, clamps, and mirrors
X.  Both branches end with the final clamp of lines 134-135. -/
def jsMapper (cal : Option (CalibrationConfig ℚ)) (raw : ℚ × ℚ) :
    JSVal × JSVal :=
  match cal with
  | some c =>
      let tX := jsDiv (.fin (raw.1 - c.xStart)) (.fin (c.xEnd - c.xStart))
      let tY := jsDiv (.fin (raw.2 - c.yStart)) (.fin (c.yEnd - c.yStart))
      (jsClamp01 tX, jsClamp01 tY)
  | none =>
      let amplifiedX : ℚ := 0.5 + (raw.1 - 0.5) * 2.5
      let amplifiedY : ℚ := 0.5 + (raw.2 - 0.5) * 2.5
      let tX : ℚ := 1 - max 0 (min 1 amplifiedX)
      let tY : ℚ := max 0 (min 1 amplifiedY)
      (jsClamp01 (.fin tX), jsClamp01 (.fin tY))

/-- The adaptive smoothing gain of `visionService.ts` lines 142-153 under
JavaScript number semantics:
`alpha = distance < 0.002 ? 0.02 : Math.min(0.1 + distance * 5, 0.5)`. -/
def jsAlpha (distance : JSVal) : JSVal :=
  if jsLt distance (.fin 0.002) then .fin 0.02
  else jsMin (jsAdd (.fin 0.1) (jsMul distance (.fin 5))) (.fin 0.5)

/-- One cursor-filter update (`visionService.ts` lines 138-156) under
JavaScript number semantics.  `distance` is the value
`Math.sqrt(dx*dx + dy*dy)`, supplied separately and constrained by
`jsSqrtSpec` because the square root of a rational is irrational in
general. -/
def jsFilterStep (cursor target : JSVal × JSVal) (distance : JSVal) :
    JSVal × JSVal :=
  let dx := jsSub target.1 cursor.1
  let dy := jsSub target.2 cursor.2
  let alpha := jsAlpha distance
  (jsAdd cursor.1 (jsMul dx alpha), jsAdd cursor.2 (jsMul dy alpha))

/-- The argument `dx*dx + dy*dy` passed to `Math.sqrt` on line 140 of
`visionService.ts`. -/
def jsDistArg (cursor target : JSVal × JSVal) : JSVal :=
  let dx := jsSub target.1 cursor.1
  let dy := jsSub target.2 cursor.2
  jsAdd (jsMul dx dx) (jsMul dy dy)

/-- Specification of JavaScript `Math.sqrt`: NaN maps to NaN, +Infinity to
+Infinity, negative arguments to NaN, and a nonnegative finite argument to
its exact nonnegative square root (expressible only when that root is
rational; the claims below apply this relation only at `nan`). -/
def jsSqrtSpec : JSVal → JSVal → Prop
  | .nan, d => d = .nan
  | .inf, d => d = .inf
  | .ninf, d => d = .nan
  | .fin q, d =>
      (q < 0 ∧ d = .nan) ∨ (0 ≤ q ∧ ∃ r : ℚ, 0 ≤ r ∧ r * r = q ∧ d = .fin r)

/-- The complete per-frame cursor update (mapper then filter,
`visionService.ts` lines 118-156) under JavaScript number semantics, with
the square-root value passed separately. -/
def jsFrameUpdate (cal : Option (CalibrationConfig ℚ)) (raw : ℚ × ℚ)
    (cursor : JSVal × JSVal) (distance : JSVal) : JSVal × JSVal :=
  jsFilterStep cursor (jsMapper cal raw) distance

/-- The blink-detector state machine of `visionService.ts` lines 163-178.
`startTime` is the field `blinkStartTime`, using the code's sentinel `-1`
for "no closure in progress" (`performance.now()` is never negative).
Given the instantaneous closed flag `isBlinking` and the current time, it
returns the new `blinkStartTime` and the `didBlink` event flag.  A blink is
emitted on reopening iff the closed duration satisfies
`duration >= 100 && duration <= 300`. -/
def blinkStep (startTime : ℚ) (isBlinking : Bool) (now : ℚ) : ℚ × Bool :=
  if isBlinking then
    (if startTime = -1 then now else startTime, false)
  else
    if startTime ≠ -1 then
      let duration := now - startTime
      (-1, decide (100 ≤ duration ∧ duration ≤ 300))
    else (startTime, false)

/-- The application status enumeration of `types.ts`. -/
inductive AppStatus where
  | IDLE
  | LOADING_MODEL
  | CALIBRATING
  | ACTIVE
  | ERROR
deriving DecidableEq

/-- The four application identifiers defined in the main application file
(the ids are the strings "mail", "weather", "assistant", "system"). -/
inductive AppId where
  | mail
  | weather
  | assistant
  | system
deriving DecidableEq

/-- The arbitrator's gesture window state: the refs `blinkCount` and
`firstBlinkHitRef` of the main application file. -/
structure GState where
  count : ℕ
  firstHit : Option AppId
deriving DecidableEq

/-- The action taken when the debounce window expires. -/
inductive ArbAction where
  | openApp : AppId → ArbAction
  | closeApp : ArbAction
  | noop : ArbAction
deriving DecidableEq

/-- The hit testing of `processVisionResult` (main application file,
lines 162-169): four sequential axis-aligned boxes around screen centre
`(0.5, 0.5)`, later boxes overriding earlier ones. -/
def hitTest (cursor : ℚ × ℚ) : Option AppId :=
  let centerX : ℚ := 0.5
  let centerY : ℚ := 0.5
  let h : Option AppId := none
  let h := if |cursor.1 - (centerX - 0.1)| < 0.08 ∧ |cursor.2 - centerY| < 0.1
    then some .mail else h
  let h := if |cursor.1 - (centerX + 0.1)| < 0.08 ∧ |cursor.2 - centerY| < 0.1
    then some .weather else h
  let h := if |cursor.1 - (centerX - 0.1)| < 0.08 ∧
      |cursor.2 - (centerY + 0.2)| < 0.1 then some .assistant else h
  let h := if |cursor.1 - (centerX + 0.1)| < 0.08 ∧
      |cursor.2 - (centerY + 0.2)| < 0.1 then some .system else h
  h

/-- The blink-gesture block of `processVisionResult` (main application file,
lines 182-213): guarded by `didBlink && status !== CALIBRATING`, it
increments `blinkCount`, captures the hit target exactly when the count
reaches 1, and (re)starts the 600 ms debounce timer.  Returns the new
gesture state and whether the timer was (re)started. -/
def blinkGesture (status : AppStatus) (s : GState) (didBlink : Bool)
    (hit : Option AppId) : GState × Bool :=
  if didBlink ∧ status ≠ AppStatus.CALIBRATING then
    let c := s.count + 1
    (⟨c, if c = 1 then hit else s.firstHit⟩, true)
  else (s, false)

/-- The debounce-timer callback of `processVisionResult` (main application
file, lines 192-212): read the accumulated count, reset it to 0, then
`count == 2` closes the active app if there is one, `count == 1` opens the
captured first-blink target if no app is active, and anything else is a
no-op.  Returns the action and the reset count. -/
def onWindowExpiry (count : ℕ) (activeApp firstHit : Option AppId) :
    ArbAction × ℕ :=
  if count = 2 then
    (if activeApp.isSome then ArbAction.closeApp else ArbAction.noop, 0)
  else if count = 1 then
    (match activeApp, firstHit with
     | none, some t => ArbAction.openApp t
     | _, _ => ArbAction.noop, 0)
  else (ArbAction.noop, 0)

/-- The per-frame gesture-layer effect of one `processVisionResult` call
(main application file, lines 159-213): hit testing (only when the status
is ACTIVE and no app is open), the dwell-open branch (guarded by
`didDwell && status !== CALIBRATING`), and the blink block.  `dwellOpen`
is the app opened by dwell this frame (if any), `timerRestart` records
whether the debounce timer was (re)started, and `hovered` is the hit-test
result passed to the UI. -/
structure FrameOut where
  gstate : GState
  dwellOpen : Option AppId
  timerRestart : Bool
  hovered : Option AppId
deriving DecidableEq

/-- See `FrameOut`. -/
def processVisionFrame (status : AppStatus) (activeApp : Option AppId)
    (s : GState) (cursor : ℚ × ℚ) (didBlink didDwell : Bool) : FrameOut :=
  let hit := if status = AppStatus.ACTIVE ∧ activeApp = none
    then hitTest cursor else none
  let dwellOpen :=
    if didDwell ∧ status ≠ AppStatus.CALIBRATING then
      (if activeApp = none ∧ hit.isSome then hit else none)
    else none
  let bg := blinkGesture status s didBlink hit
  ⟨bg.1, dwellOpen, bg.2, hit⟩

/-- A per-frame input to the blink-gesture block: whether a blink event
fired this frame and which target the concurrent hit test returned. -/
structure BlinkFrame where
  didBlink : Bool
  hit : Option AppId
deriving DecidableEq

/-- Folding the blink-gesture block over a sequence of frames processed
while the status is ACTIVE. -/
def foldGesture (s : GState) (frames : List BlinkFrame) : GState :=
  frames.foldl (fun t f => (blinkGesture AppStatus.ACTIVE t f.didBlink f.hit).1) s

/-! ### Exact-real model of the vision pipeline

The remaining definitions embed the same `visionService.ts` arithmetic over
`Real`, which is faithful to the JavaScript code whenever no division by
zero occurs (floating-point rounding out of scope).  `Real.sqrt` gives the
exact meaning of `Math.sqrt` here. -/

/-- `JITTER_THRESHOLD` (`visionService.ts` line 26). -/
def JITTER_THRESHOLD : ℝ := 0.002

/-- `IDLE_SMOOTHING` (`visionService.ts` line 27). -/
def IDLE_SMOOTHING : ℝ := 0.02

/-- `ACTIVE_SMOOTHING` (`visionService.ts` line 28). -/
def ACTIVE_SMOOTHING : ℝ := 0.1

/-- `MAX_SMOOTHING` (`visionService.ts` line 29). -/
def MAX_SMOOTHING : ℝ := 0.5

/-- `DWELL_RADIUS` (`visionService.ts` line 38). -/
def DWELL_RADIUS : ℝ := 0.04

/-- `DWELL_DURATION` in milliseconds (`visionService.ts` line 39). -/
def DWELL_DURATION : ℝ := 600

/-- `Math.max(0, Math.min(1, v))` over the reals. -/
noncomputable def clamp01 (v : ℝ) : ℝ := max 0 (min 1 v)

/-- The target computed by lines 119-131 of `visionService.ts`, before the
final clamp of lines 134-135: the calibrated per-axis ratio, or the
amplified, mirrored fallback. -/
noncomputable def mapTargetPre (cal : Option (CalibrationConfig ℝ))
    (raw : ℝ × ℝ) : ℝ × ℝ :=
  match cal with
  | some c =>
      ((raw.1 - c.xStart) / (c.xEnd - c.xStart),
       (raw.2 - c.yStart) / (c.yEnd - c.yStart))
  | none =>
      let amplifiedX := 0.5 + (raw.1 - 0.5) * 2.5
      let amplifiedY := 0.5 + (raw.2 - 0.5) * 2.5
      (1 - clamp01 amplifiedX, clamp01 amplifiedY)

/-- The landmark mapper (`visionService.ts` lines 118-135): branch target
followed by the final clamp to `[0,1]` on each axis. -/
noncomputable def mapTarget (cal : Option (CalibrationConfig ℝ))
    (raw : ℝ × ℝ) : ℝ × ℝ :=
  (clamp01 (mapTargetPre cal raw).1, clamp01 (mapTargetPre cal raw).2)

/-- The adaptive smoothing gain (`visionService.ts` lines 142-153). -/
noncomputable def adaptiveAlpha (distance : ℝ) : ℝ :=
  if distance < JITTER_THRESHOLD then IDLE_SMOOTHING
  else min (ACTIVE_SMOOTHING + distance * 5) MAX_SMOOTHING

/-- `Math.sqrt(dx*dx + dy*dy)` between a cursor and a target. -/
noncomputable def euclidDist (cursor target : ℝ × ℝ) : ℝ :=
  Real.sqrt ((target.1 - cursor.1) * (target.1 - cursor.1) +
    (target.2 - cursor.2) * (target.2 - cursor.2))

/-- One complete per-frame cursor update (`visionService.ts` lines
118-156): map the raw point, compute the displacement and its Euclidean
length, choose the gain, and move each coordinate by
`current += (target - current) * alpha`. -/
noncomputable def frameStep (cal : Option (CalibrationConfig ℝ))
    (raw cursor : ℝ × ℝ) : ℝ × ℝ :=
  let target := mapTarget cal raw
  let dx := target.1 - cursor.1
  let dy := target.2 - cursor.2
  let distance := Real.sqrt (dx * dx + dy * dy)
  let alpha := adaptiveAlpha distance
  (cursor.1 + dx * alpha, cursor.2 + dy * alpha)

/-- The cursor default `(0.5, 0.5)` (`visionService.ts` lines 21-22). -/
noncomputable def defaultCursor : ℝ × ℝ := (0.5, 0.5)

/-- The dwell-detector state (`visionService.ts` lines 35-37):
`dwellAnchor`, `dwellStartTime` and `hasTriggeredDwell`. -/
structure DwellState where
  anchor : ℝ × ℝ
  start : ℝ
  triggered : Bool

/-- `Math.sqrt(Math.pow(cx-ax,2) + Math.pow(cy-ay,2))`, the distance from
the current cursor to the dwell anchor (`visionService.ts` lines
182-185). -/
noncomputable def dwellDist (s : DwellState) (cursor : ℝ × ℝ) : ℝ :=
  Real.sqrt ((cursor.1 - s.anchor.1) ^ 2 + (cursor.2 - s.anchor.2) ^ 2)

/-- One dwell-detector update (`visionService.ts` lines 180-207): outside
the radius the anchor, timer and triggered flag are reset; inside, an
untriggered state reports `min(1, elapsed/600)` as progress and fires the
event once `elapsed >= 600`, zeroing the displayed progress and setting the
triggered flag; a triggered state does nothing.  Returns the new state, the
reported progress and the `didDwell` event flag. -/
noncomputable def dwellStep (s : DwellState) (cursor : ℝ × ℝ) (now : ℝ) :
    DwellState × ℝ × Bool :=
  if dwellDist s cursor > DWELL_RADIUS then
    (⟨cursor, now, false⟩, 0, false)
  else if s.triggered = false then
    (if now - s.start ≥ DWELL_DURATION then (⟨s.anchor, s.start, true⟩, 0, true)
     else (s, min 1 ((now - s.start) / DWELL_DURATION), false))
  else (s, 0, false)

/-- The stream of `didDwell` flags produced by running the dwell detector
over a list of frames, each frame being a cursor position paired with its
timestamp. -/
noncomputable def dwellTrace (s : DwellState) :
    List ((ℝ × ℝ) × ℝ) → List Bool
  | [] => []
  | f :: rest =>
      (dwellStep s f.1 f.2).2.2 :: dwellTrace (dwellStep s f.1 f.2).1 rest

/-- Modelled from the spec: the event pattern §4.4 prescribes for a stay
inside the radius — exactly one event, at the first frame whose elapsed
time reaches `DWELL_DURATION`, and none after it. -/
noncomputable def dwellSpecMarks (start : ℝ) :
    List ((ℝ × ℝ) × ℝ) → List Bool
  | [] => []
  | f :: rest =>
      if f.2 - start ≥ DWELL_DURATION then
        true :: rest.map (fun _ => false)
      else false :: dwellSpecMarks start rest

/-- `computeCalibration` (`CalibrationScreen.tsx` lines 88-121): average
the four corner measurements pairwise, then extrapolate the 0.1/0.9 sample
positions out to screen 0 and 1 on each axis. -/
noncomputable def computeCalibration (pTL pTR pBR pBL : ℝ × ℝ) :
    CalibrationConfig ℝ :=
  let rawXLeft := (pTL.1 + pBL.1) / 2
  let rawXRight := (pTR.1 + pBR.1) / 2
  let rawYTop := (pTL.2 + pTR.2) / 2
  let rawYBottom := (pBL.2 + pBR.2) / 2
  let rangeX := rawXRight - rawXLeft
  let startX := rawXLeft - (rangeX / 0.8) * 0.1
  let endX := rawXRight + (rangeX / 0.8) * 0.1
  let rangeY := rawYBottom - rawYTop
  let startY := rawYTop - (rangeY / 0.8) * 0.1
  let endY := rawYBottom + (rangeY / 0.8) * 0.1
  ⟨startX, endX, startY, endY⟩

/-- Modelled from the spec (claim C8's premise): the synthetic affine
sensor model `raw = start + screen * (end - start)` per axis, used to
generate exact raw samples from screen points. -/
noncomputable def affineRaw (sx ex sy ey : ℝ) (p : ℝ × ℝ) : ℝ × ℝ :=
  (sx + p.1 * (ex - sx), sy + p.2 * (ey - sy))

/-! ### Theorems -/

/-- C1: the claimed division guard does not exist.  With a stored profile
whose x-axis has `end = start` (here both `2/5`) and the raw x-coordinate
equal to `start`, the mapper computes `0/0 = NaN`, which survives the final
clamp — the output is non-finite, and it differs from what the uncalibrated
amplification/mirror fallback would produce on the same raw point, so no
fallback takes place.  This evaluates the code at the failing input of the
claim's bug report. -/
theorem c1_zero_width_axis_unguarded :
    (jsMapper (some ⟨2/5, 2/5, 1/5, 4/5⟩) (2/5, 1/2)).1 = JSVal.nan ∧
    (jsMapper none (2/5, 1/2)).1 ≠ JSVal.nan := by
  refine ⟨by norm_num [jsMapper, jsDiv, jsMin, jsMax, jsClamp01], ?_⟩
  rw [show (jsMapper none (2/5, 1/2)).1 = JSVal.fin (3/4) by
    norm_num [jsMapper, jsMin, jsMax, jsClamp01]]
  decide

/-- C7 counterexample: with a stored profile whose y-axis has
`end = start = 3/10` and the raw y-coordinate equal to `start`, the
mapper's y output after the final clamp is NaN, which does not lie in
`[0,1]`; so the output does not lie in `[0,1]²` for every profile. -/
theorem c7_counterexample_zero_width :
    (jsMapper (some ⟨0, 1, 3/10, 3/10⟩) (1/2, 3/10)).2 = JSVal.nan ∧
    jsMem01 (jsMapper (some ⟨0, 1, 3/10, 3/10⟩) (1/2, 3/10)).2 = false := by
  norm_num [jsMapper, jsDiv, jsMin, jsMax, jsClamp01, jsMem01]

/-- C6 counterexample: starting from the default cursor `(0.5, 0.5)`, one
per-frame update with a stored profile whose x-axis has `end = start` and a
raw point equal to `start` on that axis produces a NaN target; the NaN
propagates through the displacement, the `Math.sqrt` distance (witnessed by
`jsSqrtSpec`), the gain and the update, leaving both cursor coordinates
NaN — outside `[0,1]`.  So the cursor does not stay in `[0,1]²` for every
raw input and every stored profile. -/
theorem c6_counterexample_nan_cursor :
    jsSqrtSpec
      (jsDistArg (.fin (1/2), .fin (1/2))
        (jsMapper (some ⟨2/5, 2/5, 0, 1⟩) (2/5, 1/2))) JSVal.nan ∧
    jsMem01 (jsFrameUpdate (some ⟨2/5, 2/5, 0, 1⟩) (2/5, 1/2)
      (.fin (1/2), .fin (1/2)) JSVal.nan).1 = false ∧
    jsMem01 (jsFrameUpdate (some ⟨2/5, 2/5, 0, 1⟩) (2/5, 1/2)
      (.fin (1/2), .fin (1/2)) JSVal.nan).2 = false := by
  have hmap : jsMapper (some ⟨2/5, 2/5, 0, 1⟩) (2/5, 1/2) =
      (JSVal.nan, JSVal.fin (1/2)) := by
    norm_num [jsMapper, jsDiv, jsMin, jsMax, jsClamp01]
  refine ⟨?_, ?_, ?_⟩
  · rw [show (jsDistArg (.fin (1/2), .fin (1/2))
        (jsMapper (some ⟨2/5, 2/5, 0, 1⟩) (2/5, 1/2))) = JSVal.nan by
      rw [hmap]; norm_num [jsDistArg, jsSub, jsMul, jsAdd]]
    rfl
  · rw [jsFrameUpdate, hmap]
    norm_num [jsFilterStep, jsSub, jsMul, jsAdd, jsAlpha, jsLt, jsMin,
      jsMem01]
  · rw [jsFrameUpdate, hmap]
    norm_num [jsFilterStep, jsSub, jsMul, jsAdd, jsAlpha, jsLt, jsMin,
      jsMem01]

/-- C2: when the debounce deadline fires, the accumulated count is read and
reset to 0; `count = 2` with an active app closes it, `count = 1` with no
active app and a captured target opens that target, and every other
combination (0, 3 or more, 2 with nothing active, 1 with an active app or
no captured target) performs no open or close action. -/
theorem c2_window_expiry_decision (count : ℕ)
    (activeApp firstHit : Option AppId) :
    (onWindowExpiry count activeApp firstHit).2 = 0 ∧
    ((onWindowExpiry count activeApp firstHit).1 = ArbAction.closeApp ↔
      count = 2 ∧ activeApp.isSome = true) ∧
    (∀ t, (onWindowExpiry count activeApp firstHit).1 = ArbAction.openApp t ↔
      count = 1 ∧ activeApp = none ∧ firstHit = some t) ∧
    ((count = 0 ∨ 3 ≤ count ∨ (count = 2 ∧ activeApp = none) ∨
        (count = 1 ∧ (activeApp ≠ none ∨ firstHit = none))) →
      (onWindowExpiry count activeApp firstHit).1 = ArbAction.noop) := by
  rcases count with _ | _ | _ | n <;>
    cases activeApp <;> cases firstHit <;>
      simp [onWindowExpiry]

/-- Witness for C2 at concrete inputs: a triple blink is a no-op, and a
double blink with an active app closes it. -/
theorem c2_window_expiry_decision_witness :
    (onWindowExpiry 3 none none).1 = ArbAction.noop ∧
    (onWindowExpiry 2 (some AppId.mail) none).1 = ArbAction.closeApp := by
  exact ⟨(c2_window_expiry_decision 3 none none).2.2.2
      (Or.inr (Or.inl (by norm_num))),
    (c2_window_expiry_decision 2 (some AppId.mail) none).2.1.mpr
      ⟨rfl, rfl⟩⟩

/-- C3: the open-to-closed transition records the start time, and the
closed-to-open transition clears it and emits a blink event exactly when
the closed duration lies in the inclusive interval `[100, 300]` ms. -/
theorem c3_blink_duration_gate (st now : ℚ) :
    (st = -1 → blinkStep st true now = (now, false)) ∧
    (st ≠ -1 →
      (blinkStep st false now).1 = -1 ∧
      ((blinkStep st false now).2 = true ↔
        100 ≤ now - st ∧ now - st ≤ 300)) := by
  constructor
  · intro h; simp [blinkStep, h]
  · intro h; simp [blinkStep, h]

/-- Witness for C3: a closure that started at time 0 and reopened at time
150 (duration 150 ms) clears the start time and emits a blink event. -/
theorem c3_blink_duration_gate_witness :
    (blinkStep 0 false 150).1 = -1 ∧ (blinkStep 0 false 150).2 = true := by
  have h := (c3_blink_duration_gate 0 150).2 (by norm_num)
  exact ⟨h.1, h.2.mpr (by norm_num)⟩

/-- C10: a frame processed while the status is CALIBRATING has no
gesture-layer effect: the blink count and captured target are unchanged,
no debounce timer is started or restarted, no app is opened by dwell, and
nothing is hovered. -/
theorem c10_calibrating_frames_inert (activeApp : Option AppId) (s : GState)
    (cursor : ℚ × ℚ) (didBlink didDwell : Bool) :
    processVisionFrame AppStatus.CALIBRATING activeApp s cursor didBlink
      didDwell = ⟨s, none, false, none⟩ := by
  simp [processVisionFrame, blinkGesture]

/-- Unfolding one frame of the gesture fold. -/
lemma foldGesture_cons (s : GState) (f : BlinkFrame)
    (rest : List BlinkFrame) :
    foldGesture s (f :: rest) =
      foldGesture (blinkGesture AppStatus.ACTIVE s f.didBlink f.hit).1 rest :=
  rfl

/-- Frames without a blink event leave the gesture state untouched. -/
lemma foldGesture_noBlink (s : GState) (frames : List BlinkFrame)
    (h : ∀ f ∈ frames, f.didBlink = false) : foldGesture s frames = s := by
  induction frames generalizing s with
  | nil => rfl
  | cons f rest ih =>
      rw [foldGesture_cons,
        show (blinkGesture AppStatus.ACTIVE s f.didBlink f.hit).1 = s by
          simp [blinkGesture, h f (List.mem_cons_self f rest)]]
      exact ih s fun g hg => h g (List.mem_cons_of_mem f hg)

/-- Once the window holds at least one blink, no later frame modifies the
captured first-blink target, and the count never decreases. -/
lemma foldGesture_firstHit_stable (s : GState) (frames : List BlinkFrame)
    (h : 1 ≤ s.count) :
    (foldGesture s frames).firstHit = s.firstHit ∧
      s.count ≤ (foldGesture s frames).count := by
  induction frames generalizing s with
  | nil => exact ⟨rfl, le_refl _⟩
  | cons f rest ih =>
      rw [foldGesture_cons]
      by_cases hb : f.didBlink = true
      · have hstep : (blinkGesture AppStatus.ACTIVE s f.didBlink f.hit).1 =
            ⟨s.count + 1, s.firstHit⟩ := by
          simp [blinkGesture, hb]
          omega
        rw [hstep]
        obtain ⟨h1, h2⟩ := ih ⟨s.count + 1, s.firstHit⟩ (by simp)
        exact ⟨h1, le_trans (Nat.le_succ _) h2⟩
      · have hstep : (blinkGesture AppStatus.ACTIVE s f.didBlink f.hit).1 = s := by
          simp [blinkGesture, hb]
        rw [hstep]
        exact ih s h

/-- C9: the hit target used at window expiry is captured at the first
blink of the sequence only.  Starting from a reset window (`count = 0`),
after any run of blink-free frames, a blink frame `f` stores `f.hit` as the
captured target; no later frame of the window (blink or not, whatever its
hit-test result) modifies it, and a `count = 1` expiry with no active app
opens exactly the target hit-tested at that first blink. -/
theorem c9_first_blink_capture (pre post : List BlinkFrame) (f : BlinkFrame)
    (h0 : Option AppId)
    (hpre : ∀ g ∈ pre, g.didBlink = false) (hf : f.didBlink = true) :
    (foldGesture ⟨0, h0⟩ (pre ++ f :: post)).firstHit = f.hit ∧
    1 ≤ (foldGesture ⟨0, h0⟩ (pre ++ f :: post)).count ∧
    (∀ t, f.hit = some t →
      (foldGesture ⟨0, h0⟩ (pre ++ f :: post)).count = 1 →
      (onWindowExpiry (foldGesture ⟨0, h0⟩ (pre ++ f :: post)).count none
        (foldGesture ⟨0, h0⟩ (pre ++ f :: post)).firstHit).1 =
        ArbAction.openApp t) := by
  have hsplit : foldGesture ⟨0, h0⟩ (pre ++ f :: post) =
      foldGesture ⟨1, f.hit⟩ post := by
    show List.foldl _ _ _ = _
    rw [List.foldl_append]
    have h1 : List.foldl
        (fun t g => (blinkGesture AppStatus.ACTIVE t g.didBlink g.hit).1)
        ⟨0, h0⟩ pre = (⟨0, h0⟩ : GState) := foldGesture_noBlink _ _ hpre
    rw [h1]
    show foldGesture (⟨0, h0⟩ : GState) (f :: post) = _
    rw [foldGesture_cons,
      show (blinkGesture AppStatus.ACTIVE ⟨0, h0⟩ f.didBlink f.hit).1 =
        ⟨1, f.hit⟩ by simp [blinkGesture, hf]]
  obtain ⟨h1, h2⟩ := foldGesture_firstHit_stable ⟨1, f.hit⟩ post (le_refl 1)
  rw [hsplit, h1]
  refine ⟨rfl, h2, fun t ht hcount => ?_⟩
  rw [hcount, ht]
  simp [onWindowExpiry]

/-- Witness for C9: a blink-free frame hovering `weather`, then a blink
over `mail`, then a blink-free frame hovering `system` (the cursor moved
during the window); the captured target stays `mail`, and the `count = 1`
expiry opens `mail`. -/
theorem c9_first_blink_capture_witness :
    (foldGesture ⟨0, some AppId.assistant⟩
      ([⟨false, some AppId.weather⟩] ++ ⟨true, some AppId.mail⟩ ::
        [⟨false, some AppId.system⟩])).firstHit = some AppId.mail ∧
    (onWindowExpiry
      (foldGesture ⟨0, some AppId.assistant⟩
        ([⟨false, some AppId.weather⟩] ++ ⟨true, some AppId.mail⟩ ::
          [⟨false, some AppId.system⟩])).count none
      (foldGesture ⟨0, some AppId.assistant⟩
        ([⟨false, some AppId.weather⟩] ++ ⟨true, some AppId.mail⟩ ::
          [⟨false, some AppId.system⟩])).firstHit).1 =
      ArbAction.openApp AppId.mail := by
  have h := c9_first_blink_capture [⟨false, some AppId.weather⟩]
    [⟨false, some AppId.system⟩] ⟨true, some AppId.mail⟩
    (some AppId.assistant) (by decide) rfl
  exact ⟨h.1, h.2.2 AppId.mail rfl (by decide)⟩

/-- Clamping a finite value lands in the unit interval. -/
lemma jsMem01_clamp (q : ℚ) : jsMem01 (jsClamp01 (.fin q)) = true := by
  show jsMem01 (.fin (max 0 (min 1 q))) = true
  simp [jsMem01]

/-- C7 (amended): for every raw landmark point — including points outside
`[0,1]` or outside the calibrated range on either side — and for every
stored profile whose axes both have nonzero width, or no profile at all,
the mapper's output after the final clamp is a finite point of `[0,1]²`. -/
theorem c7_mapper_output_clamped (cal : Option (CalibrationConfig ℚ))
    (raw : ℚ × ℚ)
    (hcal : ∀ c, cal = some c → c.xEnd ≠ c.xStart ∧ c.yEnd ≠ c.yStart) :
    jsMem01 (jsMapper cal raw).1 = true ∧
      jsMem01 (jsMapper cal raw).2 = true := by
  cases cal with
  | none => exact ⟨jsMem01_clamp _, jsMem01_clamp _⟩
  | some c =>
      obtain ⟨hx, hy⟩ := hcal c rfl
      have h1 : jsDiv (.fin (raw.1 - c.xStart)) (.fin (c.xEnd - c.xStart)) =
          .fin ((raw.1 - c.xStart) / (c.xEnd - c.xStart)) := by
        simp [jsDiv, sub_ne_zero.mpr hx]
      have h2 : jsDiv (.fin (raw.2 - c.yStart)) (.fin (c.yEnd - c.yStart)) =
          .fin ((raw.2 - c.yStart) / (c.yEnd - c.yStart)) := by
        simp [jsDiv, sub_ne_zero.mpr hy]
      constructor
      · show jsMem01 (jsClamp01 (jsDiv (.fin (raw.1 - c.xStart))
          (.fin (c.xEnd - c.xStart)))) = true
        rw [h1]; exact jsMem01_clamp _
      · show jsMem01 (jsClamp01 (jsDiv (.fin (raw.2 - c.yStart))
          (.fin (c.yEnd - c.yStart)))) = true
        rw [h2]; exact jsMem01_clamp _

/-- Witness for C7 (amended): a raw point far outside `[0,1]` on both
sides, mapped through a nondegenerate profile, still lands in `[0,1]²`. -/
theorem c7_mapper_output_clamped_witness :
    jsMem01 (jsMapper (some ⟨1/4, 3/4, 1/4, 3/4⟩) (5, -3)).1 = true ∧
      jsMem01 (jsMapper (some ⟨1/4, 3/4, 1/4, 3/4⟩) (5, -3)).2 = true :=
  c7_mapper_output_clamped _ _ (fun c hc => by
    cases hc; exact ⟨by norm_num, by norm_num⟩)

/-- The clamp lands in the unit interval. -/
lemma clamp01_mem (v : ℝ) : 0 ≤ clamp01 v ∧ clamp01 v ≤ 1 :=
  ⟨le_max_left 0 _, max_le (by norm_num) (min_le_left 1 v)⟩

/-- The clamp is the identity on the unit interval. -/
lemma clamp01_of_mem (u : ℝ) (h0 : 0 ≤ u) (h1 : u ≤ 1) : clamp01 u = u := by
  unfold clamp01
  rw [min_eq_right h1, max_eq_right h0]

/-- The adaptive gain always lies in `(0, 1]`; in particular the filter
update is a convex combination. -/
lemma adaptiveAlpha_bounds (d : ℝ) (_hd : 0 ≤ d) :
    0 ≤ adaptiveAlpha d ∧ adaptiveAlpha d ≤ 1 := by
  unfold adaptiveAlpha JITTER_THRESHOLD IDLE_SMOOTHING ACTIVE_SMOOTHING
    MAX_SMOOTHING
  split
  · norm_num
  · exact ⟨le_min (by nlinarith) (by norm_num),
      le_trans (min_le_right _ _) (by norm_num)⟩

/-- A convex step from a point of `[0,1]` toward a target in `[0,1]` stays
in `[0,1]`. -/
lemma convex_step_mem (x t a : ℝ) (hx0 : 0 ≤ x) (hx1 : x ≤ 1)
    (ht0 : 0 ≤ t) (ht1 : t ≤ 1) (ha0 : 0 ≤ a) (ha1 : a ≤ 1) :
    0 ≤ x + (t - x) * a ∧ x + (t - x) * a ≤ 1 := by
  constructor <;>
    nlinarith [mul_nonneg ha0 ht0, mul_nonneg (sub_nonneg.2 ha1) hx0,
      mul_nonneg ha0 (sub_nonneg.2 ht1),
      mul_nonneg (sub_nonneg.2 ha1) (sub_nonneg.2 hx1)]

/-- The per-frame update written through the mapper, the Euclidean
distance and the gain. -/
lemma frameStep_eq (cal : Option (CalibrationConfig ℝ))
    (raw cursor : ℝ × ℝ) :
    frameStep cal raw cursor =
      (cursor.1 + ((mapTarget cal raw).1 - cursor.1) *
        adaptiveAlpha (euclidDist cursor (mapTarget cal raw)),
       cursor.2 + ((mapTarget cal raw).2 - cursor.2) *
        adaptiveAlpha (euclidDist cursor (mapTarget cal raw))) := rfl

/-- C4: with `d` the Euclidean distance between the previous cursor and
the new target, the filter gain is `0.02` when `d < 0.002` and
`min(0.1 + 5*d, 0.5)` when `d ≥ 0.002`, and each cursor coordinate is
updated by `current += (target - current) * gain`. -/
theorem c4_filter_gain :
    (∀ d : ℝ, d < 0.002 → adaptiveAlpha d = 0.02) ∧
    (∀ d : ℝ, 0.002 ≤ d → adaptiveAlpha d = min (0.1 + 5 * d) 0.5) ∧
    (∀ (cal : Option (CalibrationConfig ℝ)) (raw cursor : ℝ × ℝ),
      frameStep cal raw cursor =
        (cursor.1 + ((mapTarget cal raw).1 - cursor.1) *
          adaptiveAlpha (euclidDist cursor (mapTarget cal raw)),
         cursor.2 + ((mapTarget cal raw).2 - cursor.2) *
          adaptiveAlpha (euclidDist cursor (mapTarget cal raw)))) := by
  refine ⟨fun d hd => ?_, fun d hd => ?_,
    fun cal raw cursor => frameStep_eq cal raw cursor⟩
  · unfold adaptiveAlpha JITTER_THRESHOLD IDLE_SMOOTHING
    rw [if_pos hd]
  · unfold adaptiveAlpha JITTER_THRESHOLD ACTIVE_SMOOTHING MAX_SMOOTHING
    rw [if_neg (not_lt.mpr hd), mul_comm d 5]

/-- Witness for C4: a sub-threshold distance gets the idle gain and a
large distance gets the capped adaptive gain. -/
theorem c4_filter_gain_witness :
    adaptiveAlpha 0.001 = 0.02 ∧ adaptiveAlpha 1 = min (0.1 + 5 * 1) 0.5 :=
  ⟨c4_filter_gain.1 0.001 (by norm_num), c4_filter_gain.2.1 1 (by norm_num)⟩

/-- C6 (amended): the default cursor `(0.5, 0.5)` lies in `[0,1]²`, and a
per-frame update — for any raw landmark input, and any stored calibration
profile whose axes both have nonzero width (or none) — keeps both cursor
coordinates in `[0,1]`. -/
theorem c6_cursor_unit_square :
    (defaultCursor.1 ∈ Set.Icc (0:ℝ) 1 ∧
      defaultCursor.2 ∈ Set.Icc (0:ℝ) 1) ∧
    ∀ (cal : Option (CalibrationConfig ℝ)) (raw cursor : ℝ × ℝ),
      (∀ c, cal = some c → c.xEnd ≠ c.xStart ∧ c.yEnd ≠ c.yStart) →
      cursor.1 ∈ Set.Icc (0:ℝ) 1 → cursor.2 ∈ Set.Icc (0:ℝ) 1 →
      (frameStep cal raw cursor).1 ∈ Set.Icc (0:ℝ) 1 ∧
        (frameStep cal raw cursor).2 ∈ Set.Icc (0:ℝ) 1 := by
  constructor
  · exact ⟨Set.mem_Icc.mpr (by norm_num [defaultCursor]),
      Set.mem_Icc.mpr (by norm_num [defaultCursor])⟩
  · intro cal raw cursor _ h1 h2
    rw [Set.mem_Icc] at h1 h2
    have ht1 : 0 ≤ (mapTarget cal raw).1 ∧ (mapTarget cal raw).1 ≤ 1 :=
      clamp01_mem _
    have ht2 : 0 ≤ (mapTarget cal raw).2 ∧ (mapTarget cal raw).2 ≤ 1 :=
      clamp01_mem _
    have ha := adaptiveAlpha_bounds (euclidDist cursor (mapTarget cal raw))
      (Real.sqrt_nonneg _)
    rw [frameStep_eq]
    exact ⟨Set.mem_Icc.mpr
        (convex_step_mem _ _ _ h1.1 h1.2 ht1.1 ht1.2 ha.1 ha.2),
      Set.mem_Icc.mpr
        (convex_step_mem _ _ _ h2.1 h2.2 ht2.1 ht2.2 ha.1 ha.2)⟩

/-- Witness for C6 (amended): one uncalibrated update from the default
cursor stays in the unit square. -/
theorem c6_cursor_unit_square_witness :
    (frameStep none (0.7, 0.7) (0.5, 0.5)).1 ∈ Set.Icc (0:ℝ) 1 ∧
      (frameStep none (0.7, 0.7) (0.5, 0.5)).2 ∈ Set.Icc (0:ℝ) 1 :=
  c6_cursor_unit_square.2 none (0.7, 0.7) (0.5, 0.5)
    (fun _ hc => nomatch hc) (Set.mem_Icc.mpr (by norm_num))
    (Set.mem_Icc.mpr (by norm_num))

/-- Mapping an exactly affine raw sample through the recovered profile
returns the original screen point when it lies in the unit square. -/
lemma mapTarget_affine (sx ex sy ey a b : ℝ) (hx : ex ≠ sx) (hy : ey ≠ sy)
    (ha0 : 0 ≤ a) (ha1 : a ≤ 1) (hb0 : 0 ≤ b) (hb1 : b ≤ 1) :
    mapTarget (some ⟨sx, ex, sy, ey⟩) (affineRaw sx ex sy ey (a, b)) =
      (a, b) := by
  have e1 : (sx + a * (ex - sx) - sx) / (ex - sx) = a := by
    rw [show sx + a * (ex - sx) - sx = a * (ex - sx) by ring,
      mul_div_cancel_right₀ a (sub_ne_zero.mpr hx)]
  have e2 : (sy + b * (ey - sy) - sy) / (ey - sy) = b := by
    rw [show sy + b * (ey - sy) - sy = b * (ey - sy) by ring,
      mul_div_cancel_right₀ b (sub_ne_zero.mpr hy)]
  show (clamp01 ((sx + a * (ex - sx) - sx) / (ex - sx)),
    clamp01 ((sy + b * (ey - sy) - sy) / (ey - sy))) = (a, b)
  rw [e1, e2, clamp01_of_mem a ha0 ha1, clamp01_of_mem b hb0 hb1]

/-- C8: calibration round-trip.  For any nondegenerate affine sensor model
`raw = start + screen * (end - start)`, feeding the four exact corner
measurements (screen points `(0.1,0.1)`, `(0.9,0.1)`, `(0.9,0.9)`,
`(0.1,0.9)`) into `computeCalibration` recovers the original `start`/`end`
on both axes exactly, and mapping those raw samples through the resulting
profile reproduces the original screen points within `1/1000`. -/
theorem c8_calibration_roundtrip (sx ex sy ey : ℝ)
    (hx : ex ≠ sx) (hy : ey ≠ sy) :
    computeCalibration (affineRaw sx ex sy ey (0.1, 0.1))
        (affineRaw sx ex sy ey (0.9, 0.1))
        (affineRaw sx ex sy ey (0.9, 0.9))
        (affineRaw sx ex sy ey (0.1, 0.9)) = ⟨sx, ex, sy, ey⟩ ∧
    ∀ p ∈ [((0.1:ℝ), (0.1:ℝ)), (0.9, 0.1), (0.9, 0.9), (0.1, 0.9)],
      |(mapTarget (some (computeCalibration
          (affineRaw sx ex sy ey (0.1, 0.1)) (affineRaw sx ex sy ey (0.9, 0.1))
          (affineRaw sx ex sy ey (0.9, 0.9)) (affineRaw sx ex sy ey (0.1, 0.9))))
          (affineRaw sx ex sy ey p)).1 - p.1| ≤ 1/1000 ∧
      |(mapTarget (some (computeCalibration
          (affineRaw sx ex sy ey (0.1, 0.1)) (affineRaw sx ex sy ey (0.9, 0.1))
          (affineRaw sx ex sy ey (0.9, 0.9)) (affineRaw sx ex sy ey (0.1, 0.9))))
          (affineRaw sx ex sy ey p)).2 - p.2| ≤ 1/1000 := by
  have hcfg : computeCalibration (affineRaw sx ex sy ey (0.1, 0.1))
      (affineRaw sx ex sy ey (0.9, 0.1)) (affineRaw sx ex sy ey (0.9, 0.9))
      (affineRaw sx ex sy ey (0.1, 0.9)) =
      (⟨sx, ex, sy, ey⟩ : CalibrationConfig ℝ) := by
    unfold computeCalibration affineRaw
    rw [CalibrationConfig.mk.injEq]
    refine ⟨by ring, by ring, by ring, by ring⟩
  refine ⟨hcfg, ?_⟩
  intro p hp
  rw [hcfg]
  fin_cases hp <;>
    rw [mapTarget_affine sx ex sy ey _ _ hx hy (by norm_num) (by norm_num)
      (by norm_num) (by norm_num)] <;>
    norm_num

/-- Witness for C8 at the concrete sensor model
`start = (0.2, 0.7)`, `end = (0.8, 0.3)` (the y-axis reversed). -/
theorem c8_calibration_roundtrip_witness :
    computeCalibration (affineRaw 0.2 0.8 0.7 0.3 (0.1, 0.1))
        (affineRaw 0.2 0.8 0.7 0.3 (0.9, 0.1))
        (affineRaw 0.2 0.8 0.7 0.3 (0.9, 0.9))
        (affineRaw 0.2 0.8 0.7 0.3 (0.1, 0.9)) = ⟨0.2, 0.8, 0.7, 0.3⟩ ∧
    |(mapTarget (some (computeCalibration (affineRaw 0.2 0.8 0.7 0.3 (0.1, 0.1))
        (affineRaw 0.2 0.8 0.7 0.3 (0.9, 0.1))
        (affineRaw 0.2 0.8 0.7 0.3 (0.9, 0.9))
        (affineRaw 0.2 0.8 0.7 0.3 (0.1, 0.9))))
        (affineRaw 0.2 0.8 0.7 0.3 (0.9, 0.1))).1 - 0.9| ≤ 1/1000 := by
  have h := c8_calibration_roundtrip 0.2 0.8 0.7 0.3 (by norm_num) (by norm_num)
  exact ⟨h.1, (h.2 (0.9, 0.1)
    (List.mem_cons_of_mem _ (List.mem_cons_self _ _))).1⟩

/-- Leaving the dwell radius resets the anchor, the timer and the
triggered flag, whatever the current state. -/
lemma dwellStep_exit (s : DwellState) (c : ℝ × ℝ) (now : ℝ)
    (h : dwellDist s c > DWELL_RADIUS) :
    dwellStep s c now = (⟨c, now, false⟩, 0, false) := by
  unfold dwellStep
  rw [if_pos h]

/-- Inside the radius, an already-triggered detector reports no progress
and no event and keeps its state. -/
lemma dwellStep_inside_triggered (s : DwellState) (c : ℝ × ℝ) (now : ℝ)
    (hin : dwellDist s c ≤ DWELL_RADIUS) (ht : s.triggered = true) :
    dwellStep s c now = (s, 0, false) := by
  unfold dwellStep
  rw [if_neg (not_lt.mpr hin), if_neg (by simp [ht])]

/-- A triggered detector that stays inside the radius never fires again. -/
lemma dwellTrace_triggered (s : DwellState) (frames : List ((ℝ × ℝ) × ℝ))
    (ht : s.triggered = true)
    (hin : ∀ f ∈ frames, dwellDist s f.1 ≤ DWELL_RADIUS) :
    dwellTrace s frames = frames.map (fun _ => false) := by
  induction frames with
  | nil => rfl
  | cons f rest ih =>
      simp only [dwellTrace, List.map_cons]
      rw [dwellStep_inside_triggered s f.1 f.2
        (hin f (List.mem_cons_self f rest)) ht]
      exact congrArg (List.cons false)
        (ih fun g hg => hin g (List.mem_cons_of_mem f hg))

/-- An untriggered detector held inside the radius produces exactly the
event pattern of the spec: one event at the first frame whose elapsed time
reaches the dwell duration, nothing before or after. -/
lemma dwellTrace_untriggered (s : DwellState)
    (frames : List ((ℝ × ℝ) × ℝ)) (ht : s.triggered = false)
    (hin : ∀ f ∈ frames, dwellDist s f.1 ≤ DWELL_RADIUS) :
    dwellTrace s frames = dwellSpecMarks s.start frames := by
  induction frames with
  | nil => rfl
  | cons f rest ih =>
      have hf := hin f (List.mem_cons_self f rest)
      by_cases h6 : f.2 - s.start ≥ DWELL_DURATION
      · have hstep : dwellStep s f.1 f.2 =
            (⟨s.anchor, s.start, true⟩, 0, true) := by
          unfold dwellStep
          rw [if_neg (not_lt.mpr hf), if_pos ht, if_pos h6]
        simp only [dwellTrace, dwellSpecMarks]
        rw [hstep, if_pos h6]
        exact congrArg (List.cons true)
          (dwellTrace_triggered _ _ rfl
            (fun g hg => hin g (List.mem_cons_of_mem f hg)))
      · have hstep : dwellStep s f.1 f.2 =
            (s, min 1 ((f.2 - s.start) / DWELL_DURATION), false) := by
          unfold dwellStep
          rw [if_neg (not_lt.mpr hf), if_pos ht, if_neg h6]
        simp only [dwellTrace, dwellSpecMarks]
        rw [hstep, if_neg h6]
        exact congrArg (List.cons false)
          (ih fun g hg => hin g (List.mem_cons_of_mem f hg))

/-- C5: the dwell event fires exactly once per qualifying stay.  Over any
run of frames in which the cursor stays within `DWELL_RADIUS` of the
anchor of an untriggered detector, the emitted events are exactly one
`true` at the first frame whose elapsed time reaches `DWELL_DURATION`
(`dwellSpecMarks`), and none otherwise; the firing frame sets the
triggered flag and reports progress 0, and any frame that exits the radius
resets the anchor, the timer and the triggered flag. -/
theorem c5_dwell_fires_once (s : DwellState)
    (frames : List ((ℝ × ℝ) × ℝ)) (ht : s.triggered = false)
    (hin : ∀ f ∈ frames, dwellDist s f.1 ≤ DWELL_RADIUS) :
    dwellTrace s frames = dwellSpecMarks s.start frames ∧
    (∀ (c : ℝ × ℝ) (now : ℝ), dwellDist s c ≤ DWELL_RADIUS →
      now - s.start ≥ DWELL_DURATION →
      dwellStep s c now = (⟨s.anchor, s.start, true⟩, 0, true)) ∧
    (∀ (s' : DwellState) (c : ℝ × ℝ) (now : ℝ),
      dwellDist s' c > DWELL_RADIUS →
      dwellStep s' c now = (⟨c, now, false⟩, 0, false)) := by
  refine ⟨dwellTrace_untriggered s frames ht hin, fun c now hc h6 => ?_,
    fun s' c now h => dwellStep_exit s' c now h⟩
  unfold dwellStep
  rw [if_neg (not_lt.mpr hc), if_pos ht, if_pos h6]

/-- Witness for C5: a stationary cursor at the anchor sampled at 100 ms
and 700 ms produces no event at 100 ms and exactly one event at 700 ms. -/
theorem c5_dwell_fires_once_witness :
    dwellTrace ⟨(0.5, 0.5), 0, false⟩
        [((0.5, 0.5), 100), ((0.5, 0.5), 700)] =
      dwellSpecMarks 0 [((0.5, 0.5), 100), ((0.5, 0.5), 700)] ∧
    dwellTrace ⟨(0.5, 0.5), 0, false⟩
        [((0.5, 0.5), 100), ((0.5, 0.5), 700)] = [false, true] := by
  have hin : ∀ f ∈ [(((0.5:ℝ), (0.5:ℝ)), (100:ℝ)), ((0.5, 0.5), 700)],
      dwellDist ⟨(0.5, 0.5), 0, false⟩ f.1 ≤ DWELL_RADIUS := by
    intro f hf
    fin_cases hf <;> norm_num [dwellDist, DWELL_RADIUS, Real.sqrt_zero]
  have h := c5_dwell_fires_once ⟨(0.5, 0.5), 0, false⟩
    [((0.5, 0.5), 100), ((0.5, 0.5), 700)] rfl hin
  refine ⟨h.1, h.1.trans ?_⟩
  norm_num [dwellSpecMarks, DWELL_DURATION]

